import Mathlib

/-!
Verification development for the cuSPARSELt benchmark script
(`benchmark_cusparselt.py`) and the framework test suites of this
repository slice.

The script is straight-line Python orchestrating framework calls.  We embed
it shallowly: every framework call is an abstract step that either succeeds
(with a value supplied by an environment record) or raises, and each
function of the script is a Lean function from such an environment to the
pair of (the list of framework events it performed, in order) and (its
outcome: a returned row, or the uncaught exception).  Print statements,
stdout redirection, `del`/`empty_cache` calls and progress bars have no
effect on the data flow and are not recorded as events.
-/

/-- Tensor dtypes used by the script (`.half()` is `float16`). -/
inductive DType
  | float16
  | float32
deriving DecidableEq

/-- Configuration passed to `WeightNormSparsifier(...)`. -/
structure SparsifierConfig where
  sparsityLevel : ℚ
  sparseBlockShape : Nat × Nat
  zerosPerBlock : Nat
deriving DecidableEq

/-- The sparsifier configuration used at both construction sites of the
script: `sparsity_level=1.0, sparse_block_shape=(1, 4), zeros_per_block=2`,
the 2-of-4 structured sparsity pattern. -/
def benchSparseConfig : SparsifierConfig :=
  { sparsityLevel := 1, sparseBlockShape := (1, 4), zerosPerBlock := 2 }

/-- The tolerance `1e-3` used as both `rtol` and `atol` in the authored
`torch.allclose` assertions. -/
def allcloseTol : ℚ := 1 / 1000

/-- Framework-level events performed by the benchmark script, in program
order. -/
inductive Event
  | buildModel (m k : Nat) (dt : DType)        -- Model(m, k) with given dtype, cuda, eval
  | createInput (batch n k : Nat)              -- torch.randn(batch, n, k, ...)
  | createInputInt (batch n k : Nat)           -- torch.randint(10, (batch, n, k), ...)
  | prunerNew (cfg : SparsifierConfig)         -- WeightNormSparsifier(...)
  | prunerPrepare (fqn : String)               -- pruner.prepare(model, [{tensor_fqn}])
  | prunerStep                                 -- pruner.step()
  | prunerConvert (inplace : Option Bool)      -- pruner.convert(..., cuSPARSELtLinear, ...)
  | squashMask                                 -- pruner.squash_mask()
  | assertAllclose (rtol atol : ℚ)             -- assert torch.allclose(model(x), sparse_model(x), ...)
  | getAlgId                                   -- sparse_model.linear.cslt.get_alg_id()
  | timerRun (stmt : String)                   -- benchmark.Timer(stmt=...).blocked_autorange()
  | loadFile (name : String)                   -- torch.load(name)
  | saveFile (name : String)                   -- torch.save(..., name)
  | writeCSV (name : String)                   -- df.to_csv(name)
deriving DecidableEq

/-- Uncaught exceptions of the benchmark functions. -/
inductive BenchErr
  | framework (msg : String)     -- an exception raised inside a framework call
  | assertionError               -- the authored `assert torch.allclose(...)` failed
  | fileNotFound (name : String) -- torch.load on a missing file
deriving DecidableEq

/-- One straight-line step: record the event; a framework exception aborts
the function with the exception propagated unchanged, otherwise continue
with the call's value. -/
def fwStep {α β : Type} (t : List Event) (ev : Event) (r : Except String α)
    (k : List Event → α → List Event × Except BenchErr β) :
    List Event × Except BenchErr β :=
  match r with
  | .error e => (t ++ [ev], .error (.framework e))
  | .ok a => k (t ++ [ev]) a

/-- Outcomes of the framework calls made by one `compare_linear` run.
Each field is the behaviour of the corresponding call: `.ok` with its
value, or `.error` with the exception it raises. -/
structure LinearEnv where
  modelBuild : Except String Unit     -- Model(m, k).half().cuda().eval()
  inputCreate : Except String Unit    -- first torch.randn
  prepare : Except String Unit        -- pruner.prepare
  step : Except String Unit           -- pruner.step()
  convert : Except String Unit        -- pruner.convert
  squash : Except String Unit         -- pruner.squash_mask()
  forwardClose : Except String Bool   -- torch.allclose(model(x), sparse_model(x), 1e-3, 1e-3)
  algId : Except String Nat           -- cslt.get_alg_id()
  inputCreate2 : Except String Unit   -- second torch.randn
  timerSparse : Except String ℚ       -- sparse timer median (seconds)
  timerDense : Except String ℚ        -- dense timer median (seconds)

/-- The record returned by `compare_linear`. -/
structure LinearRow where
  m : Nat
  k : Nat
  n : Nat
  eval_batch_size : Nat
  init_batch_size : Nat
  alg_id : Nat
  sparse_latency_ms : ℚ
  dense_latency_ms : ℚ
  speedup : ℚ
deriving DecidableEq

/-- Shallow embedding of `compare_linear(m, k, n, batch_size,
init_batch_size=None)`: build the dense fp16 model, make the init input,
construct/prepare/step the sparsifier, convert to cuSPARSELtLinear, squash
the mask, assert closeness at rtol=atol=1e-3, read the alg id, make the
eval input, time sparse then dense, and return medians (ms) and the
speedup ratio. -/
def compare_linear (env : LinearEnv) (m k n batch_size : Nat)
    (init_batch_size : Option Nat) : List Event × Except BenchErr LinearRow :=
  fwStep [] (.buildModel m k .float16) env.modelBuild fun t _ =>
  fwStep t (.createInput (init_batch_size.getD batch_size) n k) env.inputCreate fun t _ =>
  let t := t ++ [Event.prunerNew benchSparseConfig]
  fwStep t (.prunerPrepare "linear.weight") env.prepare fun t _ =>
  fwStep t .prunerStep env.step fun t _ =>
  fwStep t (.prunerConvert none) env.convert fun t _ =>
  fwStep t .squashMask env.squash fun t _ =>
  match env.forwardClose with
  | .error e => (t ++ [.assertAllclose allcloseTol allcloseTol], .error (.framework e))
  | .ok close =>
    if close then
      fwStep (t ++ [.assertAllclose allcloseTol allcloseTol]) .getAlgId env.algId fun t aid =>
      fwStep t (.createInput batch_size n k) env.inputCreate2 fun t _ =>
      fwStep t (.timerRun "sparse_model(input_tensor)") env.timerSparse fun t ms =>
      fwStep t (.timerRun "model(input_tensor)") env.timerDense fun t md =>
      (t, .ok { m := m, k := k, n := n, eval_batch_size := batch_size,
                init_batch_size := init_batch_size.getD batch_size, alg_id := aid,
                sparse_latency_ms := ms * 1000, dense_latency_ms := md * 1000,
                speedup := md / ms })
    else
      (t ++ [.assertAllclose allcloseTol allcloseTol], .error .assertionError)

/-- The full event sequence of a successful `compare_linear` run. -/
def linFullTrace (m k n b : Nat) (i : Option Nat) : List Event :=
  [.buildModel m k .float16,
   .createInput (i.getD b) n k,
   .prunerNew benchSparseConfig,
   .prunerPrepare "linear.weight",
   .prunerStep,
   .prunerConvert none,
   .squashMask,
   .assertAllclose allcloseTol allcloseTol,
   .getAlgId,
   .createInput b n k,
   .timerRun "sparse_model(input_tensor)",
   .timerRun "model(input_tensor)"]

/-- `torch.load(name)`: raises a file-not-found error when `name` is not
among the existing files. -/
def torchLoad (fs : List String) (name : String) : Except BenchErr Unit :=
  if name ∈ fs then .ok () else .error (.fileNotFound name)

/-- Outcomes of the framework calls made by one `compare_memory` run.
`fs` is the set of files present in the working directory. -/
structure MemEnv where
  fs : List String
  modelBuild : Except String Unit
  inputCreate : Except String Unit
  prepare : Except String Unit
  step : Except String Unit
  convert : Except String Unit
  squash : Except String Unit
  forwardClose : Except String Bool
  algId : Except String Nat
  fileSize : String → Nat            -- os.stat(name).st_size

/-- The record returned by `compare_memory` (the formatted size strings of
`sizeof_fmt` are kept as raw byte counts). -/
structure MemoryRow where
  m : Nat
  k : Nat
  n : Nat
  eval_batch_size : Nat
  init_batch_size : Nat
  alg_id : Nat
  sparse_model_size : Nat
  dense_model_size : Nat
deriving DecidableEq

/-- Shallow embedding of `compare_memory(m, k, n, batch_size)`: build the
dense fp16 model and input, construct/prepare/step the sparsifier, convert
(with `inplace=False`), load `sparse_model.pt`, squash the mask, load
`dense_model.pt`, assert closeness at rtol=atol=1e-3, read the alg id, save
both state dicts, reload `sparse_model.pt` for the pprint, and return the
row with the two file sizes. -/
def compare_memory (env : MemEnv) (m k n batch_size : Nat) :
    List Event × Except BenchErr MemoryRow :=
  fwStep [] (.buildModel m k .float16) env.modelBuild fun t _ =>
  fwStep t (.createInput batch_size n k) env.inputCreate fun t _ =>
  let t := t ++ [Event.prunerNew benchSparseConfig]
  fwStep t (.prunerPrepare "linear.weight") env.prepare fun t _ =>
  fwStep t .prunerStep env.step fun t _ =>
  fwStep t (.prunerConvert (some false)) env.convert fun t _ =>
  match torchLoad env.fs "sparse_model.pt" with
  | .error e => (t ++ [.loadFile "sparse_model.pt"], .error e)
  | .ok _ =>
  let t := t ++ [Event.loadFile "sparse_model.pt"]
  fwStep t .squashMask env.squash fun t _ =>
  match torchLoad env.fs "dense_model.pt" with
  | .error e => (t ++ [.loadFile "dense_model.pt"], .error e)
  | .ok _ =>
  let t := t ++ [Event.loadFile "dense_model.pt"]
  match env.forwardClose with
  | .error e => (t ++ [.assertAllclose allcloseTol allcloseTol], .error (.framework e))
  | .ok close =>
    if close then
      fwStep (t ++ [.assertAllclose allcloseTol allcloseTol]) .getAlgId env.algId fun t aid =>
      let fs1 := "sparse_model.pt" :: env.fs
      let t := t ++ [Event.saveFile "sparse_model.pt"]
      let fs2 := "dense_model.pt" :: fs1
      let t := t ++ [Event.saveFile "dense_model.pt"]
      match torchLoad fs2 "sparse_model.pt" with
      | .error e => (t ++ [.loadFile "sparse_model.pt"], .error e)
      | .ok _ =>
        (t ++ [Event.loadFile "sparse_model.pt"],
         .ok { m := m, k := k, n := n, eval_batch_size := batch_size,
               init_batch_size := batch_size, alg_id := aid,
               sparse_model_size := env.fileSize "sparse_model.pt",
               dense_model_size := env.fileSize "dense_model.pt" })
    else
      (t ++ [.assertAllclose allcloseTol allcloseTol], .error .assertionError)

/-- The full event sequence of a successful `compare_memory` run. -/
def memFullTrace (m k n b : Nat) : List Event :=
  [.buildModel m k .float16,
   .createInput b n k,
   .prunerNew benchSparseConfig,
   .prunerPrepare "linear.weight",
   .prunerStep,
   .prunerConvert (some false),
   .loadFile "sparse_model.pt",
   .squashMask,
   .loadFile "dense_model.pt",
   .assertAllclose allcloseTol allcloseTol,
   .getAlgId,
   .saveFile "sparse_model.pt",
   .saveFile "dense_model.pt",
   .loadFile "sparse_model.pt"]

/-- Outcomes of the framework calls made by one `compare_dtype` run. -/
structure DtypeEnv where
  modelBuild : Except String Unit
  inputCreate : Except String Unit
  timer : Except String ℚ

/-- The record returned by `compare_dtype`. -/
structure DtypeRow where
  m : Nat
  k : Nat
  n : Nat
  eval_batch_size : Nat
  dtype : DType
  latency_ms : ℚ
deriving DecidableEq

/-- Shallow embedding of `compare_dtype(m, k, n, batch_size, dtype)`. -/
def compare_dtype (env : DtypeEnv) (m k n batch_size : Nat) (dt : DType) :
    List Event × Except BenchErr DtypeRow :=
  fwStep [] (.buildModel m k dt) env.modelBuild fun t _ =>
  fwStep t (.createInputInt batch_size n k) env.inputCreate fun t _ =>
  fwStep t (.timerRun "model(input_tensor)") env.timer fun t lat =>
  (t, .ok { m := m, k := k, n := n, eval_batch_size := batch_size,
            dtype := dt, latency_ms := lat * 1000 })

/-- The full event sequence of a successful `compare_dtype` run. -/
def dtypeFullTrace (m k n b : Nat) (dt : DType) : List Event :=
  [.buildModel m k dt,
   .createInputInt b n k,
   .timerRun "model(input_tensor)"]

/-- One comparison call of a shape sweep in `__main__`. -/
inductive SweepCall
  | linearCall (m k n batch : Nat) (initBatch : Option Nat)   -- compare_linear(...)
  | memoryCall (m k n batch : Nat)                            -- compare_memory(...)
  | dtypeCall (m k n batch : Nat) (dt : DType)                -- compare_dtype(...)
deriving DecidableEq

/-- The seven `choices` of the `--mode` argparse flag, in source order. -/
def modeChoices : List String :=
  ["nvidia-bert", "nvidia-fixed-k", "nvidia-fixed-mn", "distilbert-shapes",
   "alg-id-sweep", "int8-fp16-linear", "memory"]

/-- `argparse`: `--mode` is optional (absent gives `None`); a present value
outside `choices` makes argparse exit with an error. -/
def parseArgs (modeArg : Option String) : Except String (Option String) :=
  match modeArg with
  | none => .ok none
  | some s => if s ∈ modeChoices then .ok (some s) else .error "invalid choice"

/-- `bert_shapes` of the `nvidia-bert` branch. -/
def bertShapes : List (Nat × Nat × Nat) :=
  [(3072, 1024, 16384), (4096, 1024, 16384), (1024, 1024, 16384), (1024, 4096, 16384)]

/-- `nvidia-bert` sweep: `compare_linear(m, k, n, 1)` over `bert_shapes`. -/
def bertSweep : List SweepCall :=
  bertShapes.map fun s => .linearCall s.1 s.2.1 s.2.2 1 none

/-- `mn_vals` of the `nvidia-fixed-k` branch. -/
def mnVals : List Nat :=
  [3072, 4096, 5120, 6144, 7168, 8192, 9216, 10240, 11264, 12288, 13312,
   14336, 15360, 16384, 17408, 18432, 19456, 20480]

/-- `nvidia-fixed-k` sweep: `compare_linear(mn, 10240, mn, 1)`. -/
def fixedKSweep : List SweepCall :=
  mnVals.map fun mn => .linearCall mn 10240 mn 1 none

/-- `k_vals` of the `nvidia-fixed-mn` branch. -/
def kVals : List Nat :=
  [2560, 3840, 5120, 6400, 7680, 8960, 10240, 11520, 12800, 14080, 15360,
   16640, 17920, 19200, 20480]

/-- `nvidia-fixed-mn` sweep: `compare_linear(10240, k, 10240, 1)`. -/
def fixedMNSweep : List SweepCall :=
  kVals.map fun k => .linearCall 10240 k 10240 1 none

/-- The uncommented `shapes` of the `distilbert-shapes` branch. -/
def distilbertShapes : List (Nat × Nat × Nat) :=
  [(768, 3072, 3072), (3072, 768, 3072)]

/-- `batch_sizes` of the `distilbert-shapes` branch. -/
def distilbertBatchSizes : List Nat := [4, 16, 64, 256]

/-- `distilbert-shapes` sweep: `product(shapes, batch_sizes)` order. -/
def distilbertSweep : List SweepCall :=
  distilbertShapes.flatMap fun s =>
    distilbertBatchSizes.map fun b => .linearCall s.1 s.2.1 s.2.2 b none

/-- `dim_range = list(range(96, 3072 + 1, 96))`. -/
def algDimRange : List Nat := (List.range 32).map fun i => 96 * (i + 1)

/-- `batch_sizes = list(range(4, 128 + 1, 4))` of the `alg-id-sweep` branch. -/
def algBatchSizes : List Nat := (List.range 32).map fun i => 4 * (i + 1)

/-- `alg-id-sweep` sweep: the (n, batch_size) product followed by the
(batch_size, init_batch_size) product at n = 96. -/
def algIdSweep : List SweepCall :=
  (algDimRange.flatMap fun n =>
    algBatchSizes.map fun b => .linearCall 768 3072 n b none)
  ++ (algBatchSizes.flatMap fun b =>
    algBatchSizes.map fun ib => .linearCall 768 3072 96 b (some ib))

/-- `memory` sweep: the single `compare_memory(4096, 4096, 4096, 1)` call. -/
def memorySweep : List SweepCall := [.memoryCall 4096 4096 4096 1]

/-- `int8-fp16-linear` sweep: `product(batch_sizes, dtypes)` with
`dtypes = [torch.float32, torch.float16]`. -/
def int8Fp16Sweep : List SweepCall :=
  distilbertBatchSizes.flatMap fun b =>
    [DType.float32, DType.float16].map fun dt => .dtypeCall 768 3072 768 b dt

/-- The `if args.mode == ... / elif ...` dispatch: the sweep whose results
the branch assigns, `none` when no branch matches (so `results` is never
assigned). -/
def dispatchOfMode (s : String) : Option (List SweepCall) :=
  if s = "nvidia-bert" then some bertSweep
  else if s = "nvidia-fixed-k" then some fixedKSweep
  else if s = "nvidia-fixed-mn" then some fixedMNSweep
  else if s = "distilbert-shapes" then some distilbertSweep
  else if s = "alg-id-sweep" then some algIdSweep
  else if s = "memory" then some memorySweep
  else if s = "int8-fp16-linear" then some int8Fp16Sweep
  else none

/-- Uncaught exceptions of `__main__`. -/
inductive ScriptErr
  | argparseExit (msg : String)  -- argparse rejected the --mode value
  | nameError                    -- `results` referenced but never assigned
  | benchErr (e : BenchErr)      -- an exception from a comparison call
deriving DecidableEq

/-- Run one sweep call; the returned row is consumed into the results
table, only success/failure of the call matters downstream. -/
def runCall (envL : Nat → LinearEnv) (envM : MemEnv) (envD : Nat → DtypeEnv)
    (idx : Nat) : SweepCall → List Event × Except BenchErr Unit
  | .linearCall m k n b ib =>
    match compare_linear (envL idx) m k n b ib with
    | (t, .error e) => (t, .error e)
    | (t, .ok _) => (t, .ok ())
  | .memoryCall m k n b =>
    match compare_memory envM m k n b with
    | (t, .error e) => (t, .error e)
    | (t, .ok _) => (t, .ok ())
  | .dtypeCall m k n b dt =>
    match compare_dtype (envD idx) m k n b dt with
    | (t, .error e) => (t, .error e)
    | (t, .ok _) => (t, .ok ())

/-- Run the calls of a sweep in order; the first uncaught exception aborts
the whole run. `idx` numbers the calls so each gets its own environment. -/
def runSweep (envL : Nat → LinearEnv) (envM : MemEnv) (envD : Nat → DtypeEnv) :
    List SweepCall → Nat → List Event × Except BenchErr Unit
  | [], _ => ([], .ok ())
  | c :: cs, idx =>
    match runCall envL envM envD idx c with
    | (t, .error e) => (t, .error e)
    | (t, .ok _) =>
      (t ++ (runSweep envL envM envD cs (idx + 1)).1,
       (runSweep envL envM envD cs (idx + 1)).2)

/-- Shallow embedding of `__main__`: parse `--mode`, dispatch to the
sweep, evaluate the results, and write `f"{args.mode}.csv"`.  When no
branch assigned `results`, `pd.DataFrame.from_records(results)` raises a
`NameError` before any CSV is written. -/
def mainRun (envL : Nat → LinearEnv) (envM : MemEnv) (envD : Nat → DtypeEnv)
    (modeArg : Option String) : List Event × Except ScriptErr Unit :=
  match parseArgs modeArg with
  | .error msg => ([], .error (.argparseExit msg))
  | .ok none => ([], .error .nameError)
  | .ok (some s) =>
    match dispatchOfMode s with
    | none => ([], .error .nameError)
    | some calls =>
      match runSweep envL envM envD calls 0 with
      | (t, .error e) => (t, .error (.benchErr e))
      | (t, .ok _) => (t ++ [.writeCSV (s ++ ".csv")], .ok ())

/-- All framework calls of `compare_linear` before the allclose assert
succeeded. -/
def linPreOk (env : LinearEnv) : Prop :=
  env.modelBuild = .ok () ∧ env.inputCreate = .ok () ∧ env.prepare = .ok () ∧
  env.step = .ok () ∧ env.convert = .ok () ∧ env.squash = .ok ()

/-- Some framework call of `compare_linear` raised `e`. -/
def linRaised (env : LinearEnv) (e : String) : Prop :=
  env.modelBuild = .error e ∨ env.inputCreate = .error e ∨ env.prepare = .error e ∨
  env.step = .error e ∨ env.convert = .error e ∨ env.squash = .error e ∨
  env.forwardClose = .error e ∨ env.algId = .error e ∨ env.inputCreate2 = .error e ∨
  env.timerSparse = .error e ∨ env.timerDense = .error e

/-- The framework calls of `compare_memory` before the first torch.load
succeeded. -/
def memPreOk (env : MemEnv) : Prop :=
  env.modelBuild = .ok () ∧ env.inputCreate = .ok () ∧ env.prepare = .ok () ∧
  env.step = .ok () ∧ env.convert = .ok ()

/-- Everything of `compare_memory` before the allclose assert succeeded:
both state-dict files exist and all prior framework calls returned. -/
def memBeforeAssertOk (env : MemEnv) : Prop :=
  memPreOk env ∧ "sparse_model.pt" ∈ env.fs ∧ env.squash = .ok () ∧
  "dense_model.pt" ∈ env.fs

/-- Some framework call of `compare_memory` raised `e`. -/
def memRaised (env : MemEnv) (e : String) : Prop :=
  env.modelBuild = .error e ∨ env.inputCreate = .error e ∨ env.prepare = .error e ∨
  env.step = .error e ∨ env.convert = .error e ∨ env.squash = .error e ∨
  env.forwardClose = .error e ∨ env.algId = .error e

/-- File-system events among the benchmark events. -/
def isFileEvent : Event → Bool
  | .loadFile _ => true
  | .saveFile _ => true
  | _ => false

/-- A `compare_linear` environment in which every framework call succeeds
and the outputs are close. -/
def okLinearEnv : LinearEnv :=
  { modelBuild := .ok (), inputCreate := .ok (), prepare := .ok (),
    step := .ok (), convert := .ok (), squash := .ok (),
    forwardClose := .ok true, algId := .ok 7, inputCreate2 := .ok (),
    timerSparse := .ok 1, timerDense := .ok 2 }

/-- A `compare_memory` environment with both state-dict files present and
every framework call succeeding. -/
def okMemEnv : MemEnv :=
  { fs := ["sparse_model.pt", "dense_model.pt"], modelBuild := .ok (),
    inputCreate := .ok (), prepare := .ok (), step := .ok (),
    convert := .ok (), squash := .ok (), forwardClose := .ok true,
    algId := .ok 7, fileSize := fun _ => 0 }

/-- A `compare_memory` environment for a fresh working directory: no files
exist, all framework calls succeed. -/
def freshMemEnv : MemEnv :=
  { fs := [], modelBuild := .ok (), inputCreate := .ok (), prepare := .ok (),
    step := .ok (), convert := .ok (), squash := .ok (),
    forwardClose := .ok true, algId := .ok 7, fileSize := fun _ => 0 }

/-- A `compare_dtype` environment in which every framework call succeeds. -/
def okDtypeEnv : DtypeEnv :=
  { modelBuild := .ok (), inputCreate := .ok (), timer := .ok 1 }

/-- Master characterization of `compare_linear`: its trace is a prefix of
the full trace; the only `AssertionError` is the authored allclose check;
framework exceptions propagate unchanged; and a fully successful run
produces the full trace and the result row. -/
theorem compare_linear_master (env : LinearEnv) (m k n b : Nat) (i : Option Nat) :
    (∃ q, (compare_linear env m k n b i).1 ++ q = linFullTrace m k n b i)
    ∧ ((compare_linear env m k n b i).2 = .error .assertionError ↔
        linPreOk env ∧ env.forwardClose = .ok false)
    ∧ (∀ e, (compare_linear env m k n b i).2 = .error (.framework e) → linRaised env e)
    ∧ (∀ aid ms md, linPreOk env → env.forwardClose = .ok true → env.algId = .ok aid →
        env.inputCreate2 = .ok () → env.timerSparse = .ok ms → env.timerDense = .ok md →
        compare_linear env m k n b i = (linFullTrace m k n b i,
          .ok { m := m, k := k, n := n, eval_batch_size := b,
                init_batch_size := i.getD b, alg_id := aid,
                sparse_latency_ms := ms * 1000, dense_latency_ms := md * 1000,
                speedup := md / ms })) := by
  obtain ⟨mb, ic, pr, st, cv, sq, fc, ai, ic2, ts, td⟩ := env
  cases mb with
  | error e1 =>
    refine ⟨⟨_, rfl⟩, by simp [compare_linear, fwStep, linPreOk], ?_, ?_⟩
    · intro e he
      simp [compare_linear, fwStep] at he
      subst he
      simp [linRaised]
    · intro aid ms md hpre hT hA hI2 hS hD
      simp [linPreOk] at hpre
  | ok u1 =>
    cases u1
    cases ic with
    | error e2 =>
      refine ⟨⟨_, rfl⟩, by simp [compare_linear, fwStep, linPreOk], ?_, ?_⟩
      · intro e he
        simp [compare_linear, fwStep] at he
        subst he
        simp [linRaised]
      · intro aid ms md hpre hT hA hI2 hS hD
        simp [linPreOk] at hpre
    | ok u2 =>
      cases u2
      cases pr with
      | error e3 =>
        refine ⟨⟨_, rfl⟩, by simp [compare_linear, fwStep, linPreOk], ?_, ?_⟩
        · intro e he
          simp [compare_linear, fwStep] at he
          subst he
          simp [linRaised]
        · intro aid ms md hpre hT hA hI2 hS hD
          simp [linPreOk] at hpre
      | ok u3 =>
        cases u3
        cases st with
        | error e4 =>
          refine ⟨⟨_, rfl⟩, by simp [compare_linear, fwStep, linPreOk], ?_, ?_⟩
          · intro e he
            simp [compare_linear, fwStep] at he
            subst he
            simp [linRaised]
          · intro aid ms md hpre hT hA hI2 hS hD
            simp [linPreOk] at hpre
        | ok u4 =>
          cases u4
          cases cv with
          | error e5 =>
            refine ⟨⟨_, rfl⟩, by simp [compare_linear, fwStep, linPreOk], ?_, ?_⟩
            · intro e he
              simp [compare_linear, fwStep] at he
              subst he
              simp [linRaised]
            · intro aid ms md hpre hT hA hI2 hS hD
              simp [linPreOk] at hpre
          | ok u5 =>
            cases u5
            cases sq with
            | error e6 =>
              refine ⟨⟨_, rfl⟩, by simp [compare_linear, fwStep, linPreOk], ?_, ?_⟩
              · intro e he
                simp [compare_linear, fwStep] at he
                subst he
                simp [linRaised]
              · intro aid ms md hpre hT hA hI2 hS hD
                simp [linPreOk] at hpre
            | ok u6 =>
              cases u6
              cases fc with
              | error e7 =>
                refine ⟨⟨_, rfl⟩, by simp [compare_linear, fwStep, linPreOk], ?_, ?_⟩
                · intro e he
                  simp [compare_linear, fwStep] at he
                  subst he
                  simp [linRaised]
                · intro aid ms md hpre hT hA hI2 hS hD
                  simp at hT
              | ok c =>
                cases c with
                | false =>
                  refine ⟨⟨_, rfl⟩, by simp [compare_linear, fwStep, linPreOk], ?_, ?_⟩
                  · intro e he
                    simp [compare_linear, fwStep] at he
                  · intro aid ms md hpre hT hA hI2 hS hD
                    simp at hT
                | true =>
                  cases ai with
                  | error e8 =>
                    refine ⟨⟨_, rfl⟩, by simp [compare_linear, fwStep, linPreOk], ?_, ?_⟩
                    · intro e he
                      simp [compare_linear, fwStep] at he
                      subst he
                      simp [linRaised]
                    · intro aid ms md hpre hT hA hI2 hS hD
                      simp at hA
                  | ok aidv =>
                    cases ic2 with
                    | error e9 =>
                      refine ⟨⟨_, rfl⟩, by simp [compare_linear, fwStep, linPreOk], ?_, ?_⟩
                      · intro e he
                        simp [compare_linear, fwStep] at he
                        subst he
                        simp [linRaised]
                      · intro aid ms md hpre hT hA hI2 hS hD
                        simp at hI2
                    | ok u9 =>
                      cases u9
                      cases ts with
                      | error e10 =>
                        refine ⟨⟨_, rfl⟩, by simp [compare_linear, fwStep, linPreOk], ?_, ?_⟩
                        · intro e he
                          simp [compare_linear, fwStep] at he
                          subst he
                          simp [linRaised]
                        · intro aid ms md hpre hT hA hI2 hS hD
                          simp at hS
                      | ok msv =>
                        cases td with
                        | error e11 =>
                          refine ⟨⟨_, rfl⟩, by simp [compare_linear, fwStep, linPreOk], ?_, ?_⟩
                          · intro e he
                            simp [compare_linear, fwStep] at he
                            subst he
                            simp [linRaised]
                          · intro aid ms md hpre hT hA hI2 hS hD
                            simp at hD
                        | ok mdv =>
                          refine ⟨⟨_, rfl⟩, by simp [compare_linear, fwStep, linPreOk], ?_, ?_⟩
                          · intro e he
                            simp [compare_linear, fwStep] at he
                          · intro aid ms md hpre hT hA hI2 hS hD
                            simp at hA hS hD
                            subst hA
                            subst hS
                            subst hD
                            rfl

/-- The event sequence of a `compare_memory` run that fails at the first
`torch.load("sparse_model.pt")`. -/
def memLoadFailTrace (m k n b : Nat) : List Event :=
  [.buildModel m k .float16,
   .createInput b n k,
   .prunerNew benchSparseConfig,
   .prunerPrepare "linear.weight",
   .prunerStep,
   .prunerConvert (some false),
   .loadFile "sparse_model.pt"]

/-- Master characterization of `compare_memory`: trace-prefix property,
the allclose assert as the only `AssertionError`, unchanged propagation of
framework exceptions and of file-not-found errors, and the failure
equation for a working directory missing `sparse_model.pt`. -/
theorem compare_memory_master (env : MemEnv) (m k n b : Nat) :
    (∃ q, (compare_memory env m k n b).1 ++ q = memFullTrace m k n b)
    ∧ ((compare_memory env m k n b).2 = .error .assertionError ↔
        memBeforeAssertOk env ∧ env.forwardClose = .ok false)
    ∧ (∀ e, (compare_memory env m k n b).2 = .error (.framework e) → memRaised env e)
    ∧ (∀ f, (compare_memory env m k n b).2 = .error (.fileNotFound f) →
        (f = "sparse_model.pt" ∨ f = "dense_model.pt") ∧ f ∉ env.fs)
    ∧ (memPreOk env → "sparse_model.pt" ∉ env.fs →
        compare_memory env m k n b = (memLoadFailTrace m k n b,
          .error (.fileNotFound "sparse_model.pt"))) := by
  obtain ⟨fs, mb, ic, pr, st, cv, sq, fc, ai, fsize⟩ := env
  cases mb with
  | error e1 =>
    refine ⟨⟨_, rfl⟩, by simp [compare_memory, fwStep, memBeforeAssertOk, memPreOk], ?_, ?_, ?_⟩
    · intro e he
      simp [compare_memory, fwStep] at he
      subst he
      simp [memRaised]
    · intro f hf
      simp [compare_memory, fwStep] at hf
    · intro hpre hns
      simp [memPreOk] at hpre
  | ok u1 =>
    cases u1
    cases ic with
    | error e2 =>
      refine ⟨⟨_, rfl⟩, by simp [compare_memory, fwStep, memBeforeAssertOk, memPreOk], ?_, ?_, ?_⟩
      · intro e he
        simp [compare_memory, fwStep] at he
        subst he
        simp [memRaised]
      · intro f hf
        simp [compare_memory, fwStep] at hf
      · intro hpre hns
        simp [memPreOk] at hpre
    | ok u2 =>
      cases u2
      cases pr with
      | error e3 =>
        refine ⟨⟨_, rfl⟩, by simp [compare_memory, fwStep, memBeforeAssertOk, memPreOk], ?_, ?_, ?_⟩
        · intro e he
          simp [compare_memory, fwStep] at he
          subst he
          simp [memRaised]
        · intro f hf
          simp [compare_memory, fwStep] at hf
        · intro hpre hns
          simp [memPreOk] at hpre
      | ok u3 =>
        cases u3
        cases st with
        | error e4 =>
          refine ⟨⟨_, rfl⟩, by simp [compare_memory, fwStep, memBeforeAssertOk, memPreOk], ?_, ?_, ?_⟩
          · intro e he
            simp [compare_memory, fwStep] at he
            subst he
            simp [memRaised]
          · intro f hf
            simp [compare_memory, fwStep] at hf
          · intro hpre hns
            simp [memPreOk] at hpre
        | ok u4 =>
          cases u4
          cases cv with
          | error e5 =>
            refine ⟨⟨_, rfl⟩, by simp [compare_memory, fwStep, memBeforeAssertOk, memPreOk], ?_, ?_, ?_⟩
            · intro e he
              simp [compare_memory, fwStep] at he
              subst he
              simp [memRaised]
            · intro f hf
              simp [compare_memory, fwStep] at hf
            · intro hpre hns
              simp [memPreOk] at hpre
          | ok u5 =>
            cases u5
            by_cases hs : "sparse_model.pt" ∈ fs
            · cases sq with
              | error e6 =>
                refine ⟨?_, ?_, ?_, ?_, ?_⟩
                · simp [compare_memory, fwStep, torchLoad, hs]
                  exact ⟨_, rfl⟩
                · simp [compare_memory, fwStep, torchLoad, hs, memBeforeAssertOk, memPreOk]
                · intro e he
                  simp [compare_memory, fwStep, torchLoad, hs] at he
                  subst he
                  simp [memRaised]
                · intro f hf
                  simp [compare_memory, fwStep, torchLoad, hs] at hf
                · intro hpre hns
                  exact absurd hs hns
              | ok u6 =>
                cases u6
                by_cases hd : "dense_model.pt" ∈ fs
                · cases fc with
                  | error e7 =>
                    refine ⟨?_, ?_, ?_, ?_, ?_⟩
                    · simp [compare_memory, fwStep, torchLoad, hs, hd]
                      exact ⟨_, rfl⟩
                    · simp [compare_memory, fwStep, torchLoad, hs, hd, memBeforeAssertOk, memPreOk]
                    · intro e he
                      simp [compare_memory, fwStep, torchLoad, hs, hd] at he
                      subst he
                      simp [memRaised]
                    · intro f hf
                      simp [compare_memory, fwStep, torchLoad, hs, hd] at hf
                    · intro hpre hns
                      exact absurd hs hns
                  | ok c =>
                    cases c with
                    | false =>
                      refine ⟨?_, ?_, ?_, ?_, ?_⟩
                      · simp [compare_memory, fwStep, torchLoad, hs, hd]
                        exact ⟨_, rfl⟩
                      · simp [compare_memory, fwStep, torchLoad, hs, hd, memBeforeAssertOk, memPreOk]
                      · intro e he
                        simp [compare_memory, fwStep, torchLoad, hs, hd] at he
                      · intro f hf
                        simp [compare_memory, fwStep, torchLoad, hs, hd] at hf
                      · intro hpre hns
                        exact absurd hs hns
                    | true =>
                      cases ai with
                      | error e8 =>
                        refine ⟨?_, ?_, ?_, ?_, ?_⟩
                        · simp [compare_memory, fwStep, torchLoad, hs, hd]
                          exact ⟨_, rfl⟩
                        · simp [compare_memory, fwStep, torchLoad, hs, hd, memBeforeAssertOk, memPreOk]
                        · intro e he
                          simp [compare_memory, fwStep, torchLoad, hs, hd] at he
                          subst he
                          simp [memRaised]
                        · intro f hf
                          simp [compare_memory, fwStep, torchLoad, hs, hd] at hf
                        · intro hpre hns
                          exact absurd hs hns
                      | ok aidv =>
                        refine ⟨?_, ?_, ?_, ?_, ?_⟩
                        · simp [compare_memory, fwStep, torchLoad, hs, hd]
                          exact ⟨_, rfl⟩
                        · simp [compare_memory, fwStep, torchLoad, hs, hd, memBeforeAssertOk, memPreOk]
                        · intro e he
                          simp [compare_memory, fwStep, torchLoad, hs, hd] at he
                        · intro f hf
                          simp [compare_memory, fwStep, torchLoad, hs, hd] at hf
                        · intro hpre hns
                          exact absurd hs hns
                · refine ⟨?_, ?_, ?_, ?_, ?_⟩
                  · simp [compare_memory, fwStep, torchLoad, hs, hd]
                    exact ⟨_, rfl⟩
                  · simp [compare_memory, fwStep, torchLoad, hs, hd, memBeforeAssertOk, memPreOk]
                  · intro e he
                    simp [compare_memory, fwStep, torchLoad, hs, hd] at he
                  · intro f hf
                    simp [compare_memory, fwStep, torchLoad, hs, hd] at hf
                    subst hf
                    exact ⟨Or.inr rfl, hd⟩
                  · intro hpre hns
                    exact absurd hs hns
            · refine ⟨?_, ?_, ?_, ?_, ?_⟩
              · simp [compare_memory, fwStep, torchLoad, hs]
                exact ⟨_, rfl⟩
              · simp [compare_memory, fwStep, torchLoad, hs, memBeforeAssertOk, memPreOk]
              · intro e he
                simp [compare_memory, fwStep, torchLoad, hs] at he
              · intro f hf
                simp [compare_memory, fwStep, torchLoad, hs] at hf
                subst hf
                exact ⟨Or.inl rfl, hs⟩
              · intro hpre hns
                simp [compare_memory, fwStep, torchLoad, hs, memLoadFailTrace]

/-- The trace of `compare_dtype` is a prefix of its full trace. -/
theorem compare_dtype_prefix (env : DtypeEnv) (m k n b : Nat) (dt : DType) :
    ∃ q, (compare_dtype env m k n b dt).1 ++ q = dtypeFullTrace m k n b dt := by
  obtain ⟨mb, ic, tm⟩ := env
  cases mb with
  | error e1 => exact ⟨_, rfl⟩
  | ok u1 =>
    cases u1
    cases ic with
    | error e2 => exact ⟨_, rfl⟩
    | ok u2 =>
      cases u2
      cases tm with
      | error e3 => exact ⟨_, rfl⟩
      | ok lat => exact ⟨_, rfl⟩

/-- None of the comparison functions ever writes a CSV file. -/
theorem runCall_no_csv (envL : Nat → LinearEnv) (envM : MemEnv)
    (envD : Nat → DtypeEnv) (idx : Nat) (c : SweepCall) (f : String) :
    Event.writeCSV f ∉ (runCall envL envM envD idx c).1 := by
  cases c with
  | linearCall m k n b ib =>
    intro hmem
    obtain ⟨q, hq⟩ := (compare_linear_master (envL idx) m k n b ib).1
    rcases hr : compare_linear (envL idx) m k n b ib with ⟨t, r⟩
    rw [hr] at hq
    have hmem' : Event.writeCSV f ∈ t := by
      cases r with
      | error e => simpa [runCall, hr] using hmem
      | ok v => simpa [runCall, hr] using hmem
    have hfull : Event.writeCSV f ∈ linFullTrace m k n b ib := by
      rw [← hq]
      exact List.mem_append_left _ hmem'
    simp [linFullTrace] at hfull
  | memoryCall m k n b =>
    intro hmem
    obtain ⟨q, hq⟩ := (compare_memory_master envM m k n b).1
    rcases hr : compare_memory envM m k n b with ⟨t, r⟩
    rw [hr] at hq
    have hmem' : Event.writeCSV f ∈ t := by
      cases r with
      | error e => simpa [runCall, hr] using hmem
      | ok v => simpa [runCall, hr] using hmem
    have hfull : Event.writeCSV f ∈ memFullTrace m k n b := by
      rw [← hq]
      exact List.mem_append_left _ hmem'
    simp [memFullTrace] at hfull
  | dtypeCall m k n b dt =>
    intro hmem
    obtain ⟨q, hq⟩ := compare_dtype_prefix (envD idx) m k n b dt
    rcases hr : compare_dtype (envD idx) m k n b dt with ⟨t, r⟩
    rw [hr] at hq
    have hmem' : Event.writeCSV f ∈ t := by
      cases r with
      | error e => simpa [runCall, hr] using hmem
      | ok v => simpa [runCall, hr] using hmem
    have hfull : Event.writeCSV f ∈ dtypeFullTrace m k n b dt := by
      rw [← hq]
      exact List.mem_append_left _ hmem'
    simp [dtypeFullTrace] at hfull

/-- A sweep run never writes a CSV file: that happens only at the end of
`__main__`. -/
theorem runSweep_no_csv (envL : Nat → LinearEnv) (envM : MemEnv)
    (envD : Nat → DtypeEnv) (calls : List SweepCall) (idx : Nat) (f : String) :
    Event.writeCSV f ∉ (runSweep envL envM envD calls idx).1 := by
  induction calls generalizing idx with
  | nil => simp [runSweep]
  | cons c cs ih =>
    rcases hr : runCall envL envM envD idx c with ⟨t, r⟩
    have hnc := runCall_no_csv envL envM envD idx c f
    rw [hr] at hnc
    cases r with
    | error e =>
      simp only [runSweep, hr]
      exact hnc
    | ok v =>
      simp only [runSweep, hr, List.mem_append]
      rintro (h | h)
      · exact hnc h
      · exact ih (idx + 1) h

/-- C1: for every shape (m, k, n, batch_size), a `compare_linear` run whose
framework calls all succeed performs exactly the sequence: build the dense
half-precision Model, construct/prepare/step the WeightNormSparsifier,
convert the model to a cuSPARSELtLinear-backed sparse equivalent, assert
that dense and sparse outputs on the same input are close
(`torch.allclose` with rtol = atol = 1e-3), and only then time the sparse
and the dense forward pass, returning their median latencies (in ms) and
the speedup ratio dense/sparse. -/
theorem compare_linear_sequence (env : LinearEnv) (m k n b : Nat) (i : Option Nat)
    (aid : Nat) (ms md : ℚ)
    (hb : env.modelBuild = .ok ()) (hi : env.inputCreate = .ok ())
    (hp : env.prepare = .ok ()) (hst : env.step = .ok ())
    (hc : env.convert = .ok ()) (hsq : env.squash = .ok ())
    (hclose : env.forwardClose = .ok true) (ha : env.algId = .ok aid)
    (hi2 : env.inputCreate2 = .ok ()) (hts : env.timerSparse = .ok ms)
    (htd : env.timerDense = .ok md) :
    compare_linear env m k n b i = (linFullTrace m k n b i,
      .ok { m := m, k := k, n := n, eval_batch_size := b,
            init_batch_size := i.getD b, alg_id := aid,
            sparse_latency_ms := ms * 1000, dense_latency_ms := md * 1000,
            speedup := md / ms }) :=
  (compare_linear_master env m k n b i).2.2.2 aid ms md
    ⟨hb, hi, hp, hst, hc, hsq⟩ hclose ha hi2 hts htd

/-- Witness for C1 at a concrete environment and shape. -/
theorem compare_linear_sequence_witness :
    compare_linear okLinearEnv 3 4 5 2 none = (linFullTrace 3 4 5 2 none,
      .ok { m := 3, k := 4, n := 5, eval_batch_size := 2, init_batch_size := 2,
            alg_id := 7, sparse_latency_ms := 1 * 1000,
            dense_latency_ms := 2 * 1000, speedup := 2 / 1 }) :=
  compare_linear_sequence okLinearEnv 3 4 5 2 none 7 1 2
    rfl rfl rfl rfl rfl rfl rfl rfl rfl rfl rfl

/-- C3: the benchmark script has no structured error handling.  Its only
authored check is the allclose assertion: an `AssertionError` arises in
`compare_linear` or `compare_memory` exactly when everything before the
assert succeeded and `torch.allclose(model(x), sparse_model(x), 1e-3,
1e-3)` returned false; every framework exception, and every file-not-found
error of `torch.load`, propagates to the caller unchanged. -/
theorem benchmark_error_propagation (envL : LinearEnv) (envM : MemEnv)
    (m k n b : Nat) (i : Option Nat) :
    ((compare_linear envL m k n b i).2 = .error .assertionError ↔
      linPreOk envL ∧ envL.forwardClose = .ok false)
    ∧ (∀ e, (compare_linear envL m k n b i).2 = .error (.framework e) → linRaised envL e)
    ∧ ((compare_memory envM m k n b).2 = .error .assertionError ↔
      memBeforeAssertOk envM ∧ envM.forwardClose = .ok false)
    ∧ (∀ e, (compare_memory envM m k n b).2 = .error (.framework e) → memRaised envM e)
    ∧ (∀ f, (compare_memory envM m k n b).2 = .error (.fileNotFound f) →
      (f = "sparse_model.pt" ∨ f = "dense_model.pt") ∧ f ∉ envM.fs) := by
  obtain ⟨-, h2, h3, -⟩ := compare_linear_master envL m k n b i
  obtain ⟨-, m2, m3, m4, -⟩ := compare_memory_master envM m k n b
  exact ⟨h2, h3, m2, m3, m4⟩

/-- A `compare_linear` environment whose allclose check comes out false. -/
def closeFailLinearEnv : LinearEnv :=
  { okLinearEnv with forwardClose := .ok false }

/-- Witness for C3: at a concrete environment where the outputs are not
close, the run fails with exactly the assertion error. -/
theorem benchmark_error_propagation_witness :
    (compare_linear closeFailLinearEnv 1 2 3 4 none).2 = .error .assertionError :=
  (benchmark_error_propagation closeFailLinearEnv okMemEnv 1 2 3 4 none).1.mpr
    ⟨⟨rfl, rfl, rfl, rfl, rfl, rfl⟩, rfl⟩

/-- C8: every `WeightNormSparsifier` the benchmark constructs — in
`compare_linear` and in `compare_memory` — is configured with
sparsity_level = 1.0, sparse_block_shape = (1, 4), zeros_per_block = 2,
the 2-of-4 structured sparsity pattern. -/
theorem pruner_config_2of4 (envL : LinearEnv) (envM : MemEnv) (m k n b : Nat)
    (i : Option Nat) (c : SparsifierConfig) :
    (Event.prunerNew c ∈ (compare_linear envL m k n b i).1 → c = benchSparseConfig)
    ∧ (Event.prunerNew c ∈ (compare_memory envM m k n b).1 → c = benchSparseConfig) := by
  constructor
  · intro hmem
    obtain ⟨q, hq⟩ := (compare_linear_master envL m k n b i).1
    have hfull : Event.prunerNew c ∈ linFullTrace m k n b i := by
      rw [← hq]
      exact List.mem_append_left _ hmem
    simpa [linFullTrace] using hfull
  · intro hmem
    obtain ⟨q, hq⟩ := (compare_memory_master envM m k n b).1
    have hfull : Event.prunerNew c ∈ memFullTrace m k n b := by
      rw [← hq]
      exact List.mem_append_left _ hmem
    simpa [memFullTrace] using hfull

/-- Witness for C8: the sparsifier construction event does occur in a
concrete successful run, and the theorem applies to it. -/
theorem pruner_config_2of4_witness :
    Event.prunerNew benchSparseConfig ∈ (compare_linear okLinearEnv 3 4 5 2 none).1 ∧
      benchSparseConfig = benchSparseConfig := by
  constructor
  · simp [compare_linear, fwStep, okLinearEnv]
  · exact (pruner_config_2of4 okLinearEnv okMemEnv 3 4 5 2 none benchSparseConfig).1
      (by simp [compare_linear, fwStep, okLinearEnv])

/-- C9: invoking the script without `--mode` is accepted by argparse
(`args.mode` is `None`), no dispatch branch assigns `results`, and the run
dies with a `NameError` at the DataFrame construction, before any CSV file
is written (the trace is empty). -/
theorem benchmark_no_mode_name_error :
    parseArgs none = .ok none ∧
    ∀ (envL : Nat → LinearEnv) (envM : MemEnv) (envD : Nat → DtypeEnv),
      mainRun envL envM envD none = ([], .error .nameError) :=
  ⟨rfl, fun _ _ _ => rfl⟩

/-- C2: a `--mode` value is accepted exactly when it is one of the seven
fixed choices; every choice selects a fixed shape sweep; and a run that
completes writes exactly one CSV, as its last action, named exactly the
mode string followed by ".csv". -/
theorem benchmark_mode_dispatch_csv :
    (∀ s : String, (∃ v, parseArgs (some s) = .ok v) ↔ s ∈ modeChoices)
    ∧ (∀ s ∈ modeChoices, (dispatchOfMode s).isSome = true)
    ∧ (∀ (envL : Nat → LinearEnv) (envM : MemEnv) (envD : Nat → DtypeEnv)
        (s : String) (t : List Event),
        mainRun envL envM envD (some s) = (t, .ok ()) →
        t.getLast? = some (Event.writeCSV (s ++ ".csv")) ∧
        ∀ f, Event.writeCSV f ∈ t → f = s ++ ".csv") := by
  refine ⟨?_, ?_, ?_⟩
  · intro s
    by_cases h : s ∈ modeChoices
    · simp [parseArgs, h]
    · simp [parseArgs, h]
  · intro s hs
    fin_cases hs <;> rfl
  · intro envL envM envD s t h
    by_cases hmem : s ∈ modeChoices
    · rcases hd : dispatchOfMode s with - | calls
      · simp [mainRun, parseArgs, hmem, hd] at h
      · rcases hr : runSweep envL envM envD calls 0 with ⟨t', r⟩
        cases r with
        | error e => simp [mainRun, parseArgs, hmem, hd, hr] at h
        | ok v =>
          simp only [mainRun, parseArgs, hmem, if_true, hd, hr] at h
          have ht : t' ++ [Event.writeCSV (s ++ ".csv")] = t := congrArg Prod.fst h
          subst ht
          constructor
          · exact List.getLast?_concat _
          · intro f hf
            rcases List.mem_append.mp hf with h1 | h2
            · have hno := runSweep_no_csv envL envM envD calls 0 f
              rw [hr] at hno
              exact absurd h1 hno
            · simpa using h2
    · simp [mainRun, parseArgs, hmem] at h

/-- Witness for C2: a complete concrete `nvidia-bert` run, whose last
event is the write of `nvidia-bert.csv`. -/
theorem benchmark_mode_dispatch_csv_witness :
    ((mainRun (fun _ => okLinearEnv) okMemEnv (fun _ => okDtypeEnv)
        (some "nvidia-bert")).1).getLast?
      = some (Event.writeCSV ("nvidia-bert" ++ ".csv")) :=
  (benchmark_mode_dispatch_csv.2.2 (fun _ => okLinearEnv) okMemEnv
    (fun _ => okDtypeEnv) "nvidia-bert"
    (mainRun (fun _ => okLinearEnv) okMemEnv (fun _ => okDtypeEnv)
      (some "nvidia-bert")).1 rfl).1

/-- C10: `compare_memory` loads `sparse_model.pt` and `dense_model.pt`
before it ever saves them (its file events always start with the two
loads), so the `memory` mode has the precondition that both files already
exist; on a fresh working directory the run raises a file-not-found error
for `sparse_model.pt`, never saves, and `__main__` writes no CSV. -/
theorem memory_mode_requires_files (envL : Nat → LinearEnv) (envD : Nat → DtypeEnv)
    (envM : MemEnv) (m k n b : Nat)
    (hpre : memPreOk envM) (hns : "sparse_model.pt" ∉ envM.fs) :
    (compare_memory envM m k n b).2 = .error (.fileNotFound "sparse_model.pt")
    ∧ (∀ f, Event.saveFile f ∉ (compare_memory envM m k n b).1)
    ∧ (∀ (envM' : MemEnv) (m' k' n' b' : Nat), ∃ q,
        ((compare_memory envM' m' k' n' b').1.filter isFileEvent) ++ q =
          [Event.loadFile "sparse_model.pt", Event.loadFile "dense_model.pt",
           Event.saveFile "sparse_model.pt", Event.saveFile "dense_model.pt",
           Event.loadFile "sparse_model.pt"])
    ∧ (mainRun envL envM envD (some "memory")).2
        = .error (.benchErr (.fileNotFound "sparse_model.pt"))
    ∧ (∀ f, Event.writeCSV f ∉ (mainRun envL envM envD (some "memory")).1) := by
  have heq := (compare_memory_master envM m k n b).2.2.2.2 hpre hns
  have heq4 := (compare_memory_master envM 4096 4096 4096 1).2.2.2.2 hpre hns
  have hp : parseArgs (some "memory") = Except.ok (some "memory") := rfl
  have hdm : dispatchOfMode "memory" = some memorySweep := rfl
  have hrs : runSweep envL envM envD memorySweep 0
      = (memLoadFailTrace 4096 4096 4096 1, .error (.fileNotFound "sparse_model.pt")) := by
    simp [runSweep, memorySweep, runCall, heq4]
  refine ⟨?_, ?_, ?_, ?_, ?_⟩
  · rw [heq]
  · intro f
    rw [heq]
    simp [memLoadFailTrace]
  · intro envM' m' k' n' b'
    obtain ⟨q, hq⟩ := (compare_memory_master envM' m' k' n' b').1
    refine ⟨q.filter isFileEvent, ?_⟩
    rw [← List.filter_append, hq]
    rfl
  · simp [mainRun, hp, hdm, hrs]
  · intro f
    simp [mainRun, hp, hdm, hrs, memLoadFailTrace]

/-- Witness for C10: the fresh-directory environment satisfies the
hypotheses, and the run fails with the file-not-found error. -/
theorem memory_mode_requires_files_witness :
    (compare_memory freshMemEnv 1 1 1 1).2 = .error (.fileNotFound "sparse_model.pt") :=
  (memory_mode_requires_files (fun _ => okLinearEnv) (fun _ => okDtypeEnv)
    freshMemEnv 1 1 1 1 ⟨rfl, rfl, rfl, rfl, rfl⟩ (by simp [freshMemEnv])).1

/-!
Embedding for `test/functorch/test_control_flow.py`
(`test_trace_functionalize_while_loop` and the cond mismatch tests).  The
`while_loop`/`cond` combinators, `torch.func.functionalize` and `make_fx`
are framework code not present in this slice; they are modelled from the
spec's glossary, while the loop bodies and branch functions are translated
from the test source.
-/

/-- A tensor value: a shape and the flattened data. -/
structure Tensor where
  shape : List Nat
  data : List ℚ
deriving DecidableEq

/-- The tensor operations appearing in the functionalization test.
`addInPlace` is `aten.add_.Tensor`; in this test it is only ever applied
to a freshly allocated tensor, so no aliasing is observable and its value
semantics coincides with `add`. -/
inductive FInstr
  | view (s : List Nat)       -- aten.view.default
  | viewCopy (s : List Nat)   -- aten.view_copy.default (pure replacement)
  | add (c : ℚ)               -- aten.add.Tensor
  | addInPlace (c : ℚ)        -- aten.add_.Tensor
deriving DecidableEq

/-- Value semantics of one tensor operation. -/
def evalFInstr : FInstr → Tensor → Tensor
  | .view s, t => { shape := s, data := t.data }
  | .viewCopy s, t => { shape := s, data := t.data }
  | .add c, t => { shape := t.shape, data := t.data.map fun q => q + c }
  | .addInPlace c, t => { shape := t.shape, data := t.data.map fun q => q + c }

/-- Run a straight-line tensor program. -/
def evalFProg (p : List FInstr) (t : Tensor) : Tensor :=
  p.foldl (fun acc i => evalFInstr i acc) t

/-- `cond_fun`: `iter_ = iter.view(1) + 1; iter_.add_(-1); return iter_ > 0`. -/
def condProg : List FInstr := [.view [1], .add 1, .addInPlace (-1)]

/-- `body_fun` on `val`: `val_ = val.view(3, 2) + 2; val_.add_(-1);
return val_.view(2, 3)` (the iter component is decremented separately). -/
def bodyValProg : List FInstr := [.view [3, 2], .add 2, .addInPlace (-1), .view [2, 3]]

/-- The loop guard: run `cond_fun`'s program on `iter` and test `> 0`. -/
def condSem (p : List FInstr) (s : Tensor × Tensor) : Bool :=
  (evalFProg p s.1).data.all fun q => decide (0 < q)

/-- The loop body: `(iter - 1, body program applied to val)`. -/
def bodySem (p : List FInstr) (s : Tensor × Tensor) : Tensor × Tensor :=
  ({ shape := s.1.shape, data := s.1.data.map fun q => q - 1 }, evalFProg p s.2)

/-- Modelled from the spec: `control_flow.while_loop(cond_fun, body_fun,
input)` (framework code absent from src/) iterates the body while the
guard holds; `fuel` bounds the iteration count so the model is total, and
is irrelevant once the guard has become false. -/
def whileLoop {σ : Type} (fuel : Nat) (c : σ → Bool) (b : σ → σ) (s : σ) : σ :=
  match fuel with
  | 0 => s
  | Nat.succ fuel => if c s then whileLoop fuel c b (b s) else s

/-- The while_loop computation of the test, as a function of the cond and
body programs. -/
def runWhileProgs (cp bp : List FInstr) (fuel : Nat) (s : Tensor × Tensor) :
    Tensor × Tensor :=
  whileLoop fuel (condSem cp) (bodySem bp) s

/-- Tracing modes of `make_fx` (its default is `real`). -/
inductive TracingMode
  | real
  | symbolic
  | fake
deriving DecidableEq

/-- A traced while_loop graph: the cond and body submodules. -/
structure WhileLoopGraph where
  condGraph : List FInstr
  bodyGraph : List FInstr
deriving DecidableEq

/-- Modelled from the spec: symbolic tracing (`make_fx`, framework code
absent from src/) captures the program's tensor operations into a graph;
`real` and `symbolic` modes capture the same operations. -/
def traceWhileLoop (_mode : TracingMode) (cp bp : List FInstr) : WhileLoopGraph :=
  { condGraph := cp, bodyGraph := bp }

/-- Evaluating a traced while_loop graph runs its captured programs. -/
def evalWhileGraph (g : WhileLoopGraph) (fuel : Nat) (s : Tensor × Tensor) :
    Tensor × Tensor :=
  runWhileProgs g.condGraph g.bodyGraph fuel s

/-- `op_count` over a traced graph and its submodules. -/
def opCountWhile (isOp : FInstr → Bool) (g : WhileLoopGraph) : Nat :=
  (g.condGraph.filter isOp).length + (g.bodyGraph.filter isOp).length

/-- Matches `aten.view.default` nodes. -/
def isViewDefault : FInstr → Bool
  | .view _ => true
  | _ => false

/-- Matches `aten.add_.Tensor` nodes. -/
def isAddInPlace : FInstr → Bool
  | .addInPlace _ => true
  | _ => false

/-- Modelled from the spec: functionalization
(`torch.func.functionalize(f, remove="mutations_and_views")`, framework
code absent from src/) rewrites in-place mutations into pure data-flow
equivalents and replaces view operations by copying equivalents. -/
def functionalizeInstr : FInstr → FInstr
  | .view s => .viewCopy s
  | .addInPlace c => .add c
  | i => i

/-- Functionalize a whole program. -/
def functionalizeProg (p : List FInstr) : List FInstr :=
  p.map functionalizeInstr

/-- Functionalization preserves the value semantics of each operation. -/
theorem evalFInstr_functionalize (i : FInstr) (t : Tensor) :
    evalFInstr (functionalizeInstr i) t = evalFInstr i t := by
  cases i <;> rfl

/-- Functionalization preserves the value semantics of programs. -/
theorem evalFProg_functionalize (p : List FInstr) (t : Tensor) :
    evalFProg (functionalizeProg p) t = evalFProg p t := by
  induction p generalizing t with
  | nil => rfl
  | cons i p ih =>
    show evalFProg (functionalizeProg p) (evalFInstr (functionalizeInstr i) t)
        = evalFProg p (evalFInstr i t)
    rw [evalFInstr_functionalize]
    exact ih _

/-- Functionalization preserves the loop guard. -/
theorem condSem_functionalize (p : List FInstr) (s : Tensor × Tensor) :
    condSem (functionalizeProg p) s = condSem p s := by
  simp [condSem, evalFProg_functionalize]

/-- Functionalization preserves the loop body. -/
theorem bodySem_functionalize (p : List FInstr) (s : Tensor × Tensor) :
    bodySem (functionalizeProg p) s = bodySem p s := by
  simp [bodySem, evalFProg_functionalize]

/-- Functionalization preserves the whole while_loop computation. -/
theorem runWhileProgs_functionalize (cp bp : List FInstr) (fuel : Nat)
    (s : Tensor × Tensor) :
    runWhileProgs (functionalizeProg cp) (functionalizeProg bp) fuel s
      = runWhileProgs cp bp fuel s := by
  have hc : condSem (functionalizeProg cp) = condSem cp :=
    funext fun s => condSem_functionalize cp s
  have hb : bodySem (functionalizeProg bp) = bodySem bp :=
    funext fun s => bodySem_functionalize bp s
  simp [runWhileProgs, hc, hb]

/-- C4: functionalizing the test's while_loop with
remove="mutations_and_views" is semantically transparent: the
functionalized computation and the graphs traced from it (tracing modes
real and symbolic) return results equal to the eager result on every
input, the traced graphs contain zero `aten.view.default` and zero
`aten.add_.Tensor` operations, and the loop body adds 1 to every element
of `val`. -/
theorem functionalize_while_loop_transparent (fuel : Nat) (s : Tensor × Tensor) :
    runWhileProgs (functionalizeProg condProg) (functionalizeProg bodyValProg) fuel s
      = runWhileProgs condProg bodyValProg fuel s
    ∧ (∀ (mode : TracingMode) (f : Nat) (s' : Tensor × Tensor),
        evalWhileGraph (traceWhileLoop mode (functionalizeProg condProg)
          (functionalizeProg bodyValProg)) f s' = runWhileProgs condProg bodyValProg f s')
    ∧ opCountWhile isViewDefault (traceWhileLoop .real (functionalizeProg condProg)
        (functionalizeProg bodyValProg)) = 0
    ∧ opCountWhile isAddInPlace (traceWhileLoop .real (functionalizeProg condProg)
        (functionalizeProg bodyValProg)) = 0
    ∧ opCountWhile isViewDefault (traceWhileLoop .symbolic (functionalizeProg condProg)
        (functionalizeProg bodyValProg)) = 0
    ∧ opCountWhile isAddInPlace (traceWhileLoop .symbolic (functionalizeProg condProg)
        (functionalizeProg bodyValProg)) = 0
    ∧ (∀ v : Tensor, (evalFProg bodyValProg v).data = v.data.map fun q => q + 1) := by
  refine ⟨runWhileProgs_functionalize condProg bodyValProg fuel s, ?_, rfl, rfl, rfl, rfl, ?_⟩
  · intro mode f s'
    exact runWhileProgs_functionalize condProg bodyValProg f s'
  · intro v
    show ((v.data.map fun q => q + 2).map fun q => q + (-1)) = v.data.map fun q => q + 1
    rw [List.map_map]
    congr 1
    funext q
    simp only [Function.comp_apply]
    ring

/-- The output signature of a `cond` branch: a single tensor of a given
size, or a tuple of tensors. -/
inductive BranchOut
  | single (shape : List Nat)
  | tupleOut (shapes : List (List Nat))
deriving DecidableEq

/-- `true_fn(x) = x.sin()`: one tensor of the input's shape. -/
def sinBranch (s : List Nat) : BranchOut := .single s

/-- `false_fn(x) = (x, x)`: a pair of tensors of the input's shape. -/
def pairBranch (s : List Nat) : BranchOut := .tupleOut [s, s]

/-- `false_fn(x) = torch.zeros([10, 10])`: a fixed 10 x 10 tensor. -/
def zeros10Branch (_ : List Nat) : BranchOut := .single [10, 10]

/-- The outcome of tracing a `cond`. -/
inductive CondTraceResult
  | graph (trueOut falseOut : BranchOut)
  | assertionError
deriving DecidableEq

/-- Modelled from the spec: `make_fx` tracing of `cond` (framework code
absent from src/) asserts that the two branches produce outputs matching
in type and size; on a mismatch an `AssertionError` propagates to the
caller, in every tracing mode. -/
def traceCond (_mode : TracingMode) (tf ff : List Nat → BranchOut)
    (s : List Nat) : CondTraceResult :=
  if tf s = ff s then .graph (tf s) (ff s) else .assertionError

/-- C6: tracing a `cond` whose branches disagree — one returning a single
tensor and the other a tuple, or the two returning tensors of different
sizes — raises an `AssertionError`, in every tracing mode (the default
mode of `make_fx` is `real`; the fake-tensor variants use `fake`). -/
theorem cond_branch_mismatch_assertion :
    (∀ mode, traceCond mode sinBranch pairBranch [4] = .assertionError)
    ∧ (∀ mode, traceCond mode sinBranch zeros10Branch [4] = .assertionError) := by
  constructor <;> intro mode <;> rfl

/-!
Embedding for `test/quantization/fx/test_quantize_pt2e.py`
(`TestQuantizePT2E.test_qconfig_none`).  `prepare_pt2e`/`convert_pt2e` are
framework code not present in this slice; the rewrite is modelled from the
spec's glossary, the two-conv model and the qconfig mapping from the test
source.
-/

/-- Nodes of a quantized computation graph. -/
inductive QNode
  | quantizePerTensor      -- quantized_decomposed.quantize_per_tensor
  | dequantizePerTensor    -- quantized_decomposed.dequantize_per_tensor
  | convolution (name : String)  -- aten.convolution.default of the named conv
deriving DecidableEq

/-- A `QConfigMapping`: a global qconfig flag plus per-module-name
overrides (`set_module_name(name, None)` records `(name, false)`). -/
structure QConfigMapping where
  globalQConfig : Bool
  moduleNameOverrides : List (String × Bool)

/-- The qconfig resolved for a module name: the override when present,
otherwise the global qconfig. -/
def qconfigFor (qm : QConfigMapping) (name : String) : Bool :=
  match qm.moduleNameOverrides.find? (fun p => p.1 == name) with
  | some p => p.2
  | none => qm.globalQConfig

/-- Modelled from the spec: the post-training quantization graph rewrite
(`prepare_pt2e` followed by `convert_pt2e`, framework code absent from
src/) inserts quantize/dequantize operations into the computation graph
only where a qconfig is configured: a quantized convolution gets a
quantize/dequantize pair for its input activation, one for its weight and
one for its output; a module whose qconfig is None is left untouched. -/
def convertPT2E (qm : QConfigMapping) (convs : List String) : List QNode :=
  convs.flatMap fun c =>
    if qconfigFor qm c then
      [.quantizePerTensor, .dequantizePerTensor,
       .quantizePerTensor, .dequantizePerTensor,
       .convolution c,
       .quantizePerTensor, .dequantizePerTensor]
    else
      [.convolution c]

/-- Occurrences of a node in a graph. -/
def countQNode (x : QNode) (g : List QNode) : Nat :=
  (g.filter fun y => decide (y = x)).length

/-- The two-convolution model `M` of the test, in forward order. -/
def twoConvModel : List String := ["conv1", "conv2"]

/-- The test's mapping: a global qnnpack qconfig with module "conv2"
mapped to None. -/
def testQConfigMapping : QConfigMapping :=
  { globalQConfig := true, moduleNameOverrides := [("conv2", false)] }

/-- C5: converting the two-conv model with a global qconfig and "conv2"
mapped to None yields exactly the graph with the first convolution
quantized (input, weight and output each get a quantize/dequantize pair)
and the second untouched: exactly 3 quantize_per_tensor and exactly 3
dequantize_per_tensor nodes. -/
theorem pt2e_qconfig_none_counts :
    convertPT2E testQConfigMapping twoConvModel
      = [.quantizePerTensor, .dequantizePerTensor,
         .quantizePerTensor, .dequantizePerTensor,
         .convolution "conv1",
         .quantizePerTensor, .dequantizePerTensor,
         .convolution "conv2"]
    ∧ countQNode .quantizePerTensor (convertPT2E testQConfigMapping twoConvModel) = 3
    ∧ countQNode .dequantizePerTensor (convertPT2E testQConfigMapping twoConvModel) = 3
    ∧ qconfigFor testQConfigMapping "conv1" = true
    ∧ qconfigFor testQConfigMapping "conv2" = false :=
  ⟨rfl, rfl, rfl, rfl, rfl⟩
